import Mathlib

/-!
Shallow embedding of the PomoPal Pomodoro timer core (service_worker.js).

Timestamps and durations are epoch milliseconds, embedded as `Int`
(JavaScript numbers holding integer millisecond values). The `phase`
field is a `String`, as in the source, where it ranges over the literals
"idle", "work", "short_break" and "long_break" but is not confined to
them by the type system; this keeps the defensive reset branch of
`startNextPhase` statable. Date keys (YYYY-MM-DD strings in the source)
are embedded as `Int` day indices, with the Date-library computation of
the previous calendar day embedded as subtracting 1.
-/

/-- Merged user settings (DEFAULT_SETTINGS keys the core reads).
The cosmetic `theme` key is omitted: the core timer logic never reads it. -/
structure Settings where
  workDuration : Int
  shortBreakDuration : Int
  longBreakDuration : Int
  longBreakInterval : Nat
deriving DecidableEq, Repr

/-- The DEFAULT_SETTINGS object of service_worker.js. -/
def defaultSettings : Settings :=
  { workDuration := 25, shortBreakDuration := 5, longBreakDuration := 15,
    longBreakInterval := 4 }

/-- The in-memory `state` object of service_worker.js. -/
structure TimerState where
  phase : String
  running : Bool
  startTime : Option Int
  endTime : Option Int
  remainingTime : Option Int
  cycleCount : Nat
deriving DecidableEq, Repr

/-- The initial value of `state`, also produced by `resetTimer`. -/
def initState : TimerState :=
  { phase := "idle", running := false, startTime := none, endTime := none,
    remainingTime := none, cycleCount := 0 }

/-- `resetTimer` (state part): unconditionally restores the initial state. -/
def resetTimer : TimerState := initState

/-- `startNextPhase` (state part): decide the next phase from the phase
being left, set the fresh start and end timestamps and mark the timer
running. The final branch mirrors the defensive `resetTimer(); return`
of the source for an unexpected phase string. -/
def startNextPhase (settings : Settings) (now : Int) (s : TimerState) : TimerState :=
  if s.phase = "idle" ∨ s.phase = "short_break" ∨ s.phase = "long_break" then
    { phase := "work", running := true, startTime := some now,
      endTime := some (now + settings.workDuration * 60 * 1000),
      remainingTime := none, cycleCount := s.cycleCount }
  else if s.phase = "work" then
    if (s.cycleCount + 1) % settings.longBreakInterval = 0 then
      { phase := "long_break", running := true, startTime := some now,
        endTime := some (now + settings.longBreakDuration * 60 * 1000),
        remainingTime := none, cycleCount := s.cycleCount + 1 }
    else
      { phase := "short_break", running := true, startTime := some now,
        endTime := some (now + settings.shortBreakDuration * 60 * 1000),
        remainingTime := none, cycleCount := s.cycleCount + 1 }
  else
    resetTimer

/-- `pauseTimer` (state part): no-op unless running; otherwise capture
`remainingTime = Math.max(state.endTime - now, 0)` and stop. The source
reads `state.endTime` without a null check; the JavaScript coercion of
null to 0 in arithmetic is embedded as `Option.getD 0`. Note the source
does not assign to `state.endTime` here. -/
def pauseTimer (now : Int) (s : TimerState) : TimerState :=
  if s.running = false then s
  else
    { s with running := false,
             remainingTime := some (max (s.endTime.getD 0 - now) 0) }

/-- `resumeTimer` (state part): no-op when running or when
`remainingTime` is null; otherwise restart the countdown with
`endTime = now + remainingTime`. -/
def resumeTimer (now : Int) (s : TimerState) : TimerState :=
  if s.running = true ∨ s.remainingTime = none then s
  else
    { s with running := true, startTime := some now,
             endTime := some (now + s.remainingTime.getD 0),
             remainingTime := none }

/-- One externally dispatched command, carrying the wall-clock instant at
which it runs and, for start, the settings snapshot fetched at that
decision point. -/
inductive Cmd where
  | start (settings : Settings) (now : Int)
  | pause (now : Int)
  | resume (now : Int)

/-- Dispatch one command to the state-mutating handlers of the source. -/
def applyCmd (c : Cmd) (s : TimerState) : TimerState :=
  match c with
  | Cmd.start settings now => startNextPhase settings now s
  | Cmd.pause now => pauseTimer now s
  | Cmd.resume now => resumeTimer now s

/-- Run a finite sequence of start/pause/resume commands from the
initial idle state. -/
def runCmds (cs : List Cmd) : TimerState :=
  cs.foldl (fun s c => applyCmd c s) initState

/-- The idle description of the exactly-one-of invariant. -/
def isIdleS (s : TimerState) : Prop :=
  s.phase = "idle" ∧ s.running = false ∧ s.remainingTime = none

/-- The running-with-endTime description of the exactly-one-of invariant. -/
def isRunningS (s : TimerState) : Prop :=
  s.running = true ∧ s.endTime ≠ none ∧ s.remainingTime = none ∧ s.phase ≠ "idle"

/-- The paused-with-remainingTime description of the exactly-one-of invariant. -/
def isPausedS (s : TimerState) : Prop :=
  s.running = false ∧ s.remainingTime ≠ none ∧ s.phase ≠ "idle"

/-- At least one of the three descriptions holds. -/
def goodState (s : TimerState) : Prop :=
  isIdleS s ∨ isRunningS s ∨ isPausedS s

/-- Exactly one of the three descriptions holds. -/
def exactlyOneInv (s : TimerState) : Prop :=
  (isIdleS s ∧ ¬ isRunningS s ∧ ¬ isPausedS s) ∨
  (¬ isIdleS s ∧ isRunningS s ∧ ¬ isPausedS s) ∨
  (¬ isIdleS s ∧ ¬ isRunningS s ∧ isPausedS s)

/-- A chrome.alarms registration: its name, the `when` timestamp, and the
optional `periodInMinutes` of a repeating alarm. -/
structure Alarm where
  name : String
  fireAt : Int
  period : Option Int
deriving DecidableEq, Repr

/-- The world visible to the scheduler adapter: the timer state, the
list of pending chrome.alarms registrations, and whether a deferred
`setTimeout(() => startNextPhase(), 500)` continuation from a phase
completion is still pending. -/
structure World where
  timer : TimerState
  alarms : List Alarm
  pendingTimeout : Bool
deriving DecidableEq, Repr

/-- `scheduleAlarms`: clear all alarms, then, only if the timer is
running, register the one-shot `timerEnd` alarm at `state.endTime` and
the repeating `updateBadge` alarm. -/
def scheduleAlarms (now : Int) (s : TimerState) : List Alarm :=
  if s.running = true then
    [ { name := "timerEnd", fireAt := s.endTime.getD 0, period := none },
      { name := "updateBadge", fireAt := now + 1000, period := some 1 } ]
  else []

/-- The `start` command at the world level: run `startNextPhase` and
record the alarms it leaves registered. In the defensive branch the
source calls `resetTimer`, whose `chrome.alarms.clearAll()` leaves no
registrations, which coincides with `scheduleAlarms` on a non-running
state. -/
def startW (settings : Settings) (now : Int) (w : World) : World :=
  let t := startNextPhase settings now w.timer
  { timer := t, alarms := scheduleAlarms now t, pendingTimeout := w.pendingTimeout }

/-- The `pause` command at the world level: when running, the source
clears all alarms after capturing the remaining time; otherwise it
returns before touching the alarms. -/
def pauseW (now : Int) (w : World) : World :=
  if w.timer.running = true then
    { w with timer := pauseTimer now w.timer, alarms := [] }
  else w

/-- The `resume` command at the world level: when the guard passes, the
new countdown is started and alarms are rescheduled; otherwise nothing
changes. -/
def resumeW (now : Int) (w : World) : World :=
  if w.timer.running = false ∧ w.timer.remainingTime ≠ none then
    let t := resumeTimer now w.timer
    { w with timer := t, alarms := scheduleAlarms now t }
  else w

/-- The `reset` command at the world level: restore the initial timer
state and clear every alarm registration. The source has no handle on a
pending `setTimeout` continuation, so `pendingTimeout` is untouched. -/
def resetW (w : World) : World :=
  { timer := resetTimer, alarms := [], pendingTimeout := w.pendingTimeout }

/-- Delivery of the `timerEnd` alarm. It can fire only while its
registration is pending; Chrome drops the one-shot registration when it
fires. The listener body stops the countdown, clears `remainingTime`
(the just-completed indicator) and schedules the deferred automatic
`startNextPhase` 500 ms later via `setTimeout` (the stats side effect on
a work completion is modelled separately by `incrementStat`). -/
def fireTimerEnd (w : World) : World :=
  if w.alarms.any (fun a => a.name = "timerEnd") then
    { timer := { w.timer with running := false, remainingTime := none },
      alarms := w.alarms.filter (fun a => ¬ a.name = "timerEnd"),
      pendingTimeout := true }
  else w

/-- Expiry of the 500 ms `setTimeout` armed by the alarm listener: if the
deferred continuation is still pending it runs `startNextPhase`;
otherwise nothing happens. -/
def fireTimeout (settings : Settings) (now : Int) (w : World) : World :=
  if w.pendingTimeout = true then
    startW settings now { w with pendingTimeout := false }
  else w

/-- The streak fields kept in chrome.storage.local: `streak` (read back
with `|| 0`, so absence and 0 coincide) and the optional
`lastStreakDate`. -/
structure StreakData where
  streak : Nat
  lastStreakDate : Option Int
deriving DecidableEq, Repr

/-- The streak portion of `incrementStat`: with a recorded `lastStreakDate`,
increment when it was yesterday, keep when it was the same day, reset to
1 otherwise; with none recorded, start at 1. `lastStreakDate` always
becomes the completion date. -/
def updateStreak (dateKey : Int) (sd : StreakData) : StreakData :=
  match sd.lastStreakDate with
  | some lastDate =>
    let yKey := dateKey - 1
    if lastDate = yKey then
      { streak := sd.streak + 1, lastStreakDate := some dateKey }
    else if ¬ lastDate = dateKey then
      { streak := 1, lastStreakDate := some dateKey }
    else
      { streak := sd.streak, lastStreakDate := some dateKey }
  | none => { streak := 1, lastStreakDate := some dateKey }

/-- `incrementStat dateKey`: bump the per-day ledger entry
(`stats[dateKey] = (stats[dateKey] || 0) + 1`, embedded as a total map
with default 0) and apply the streak rule. -/
def incrementStat (dateKey : Int) (stats : Int → Nat) (sd : StreakData) :
    (Int → Nat) × StreakData :=
  (fun k => if k = dateKey then stats k + 1 else stats k, updateStreak dateKey sd)

/-- `computeStatsSummary` given today as a day index: the ledger entry
for today, the sum of the entries of the 7-day trailing window
(`for i in 0..6, stats[today - i]`), and the stored streak. -/
def computeStatsSummary (today : Int) (stats : Int → Nat) (storedStreak : Nat) :
    Nat × Nat × Nat :=
  (stats today,
   (List.range 7).foldl (fun acc i => acc + stats (today - (i : Int))) 0,
   storedStreak)

/-- A running Work-phase state 25 minutes from endTime (as produced by a
start from idle at time 0 under the default settings). -/
def runningWork0 : TimerState :=
  { phase := "work", running := true, startTime := some 0, endTime := some 1500000,
    remainingTime := none, cycleCount := 0 }

/-- A running Work-phase state whose endTime has already passed once the
clock reads 200 (the end-of-phase alarm has not been handled yet). -/
def overdueWork : TimerState :=
  { phase := "work", running := true, startTime := some 0, endTime := some 100,
    remainingTime := none, cycleCount := 0 }

/-- A paused Work-phase state with 10 minutes remaining and three work
phases completed since the last long break. -/
def pausedWork3 : TimerState :=
  { phase := "work", running := false, startTime := some 0, endTime := some 1500000,
    remainingTime := some 600000, cycleCount := 3 }

/-- A state whose phase string is outside the four expected values,
exercising the defensive branch of startNextPhase. -/
def bogusState : TimerState :=
  { phase := "broken", running := false, startTime := none, endTime := none,
    remainingTime := some 7, cycleCount := 2 }

/-- A sample ledger with entries on day 100 (2 completions), day 99
(1 completion) and day 92 (5 completions). -/
def sampleStats : Int → Nat :=
  fun k => if k = 100 then 2 else if k = 99 then 1 else if k = 92 then 5 else 0

/-- The initial state is described by the idle disjunct. -/
theorem goodState_initState : goodState initState := by
  left
  exact ⟨rfl, rfl, rfl⟩

/-- Whatever the incoming state, `startNextPhase` leaves a state covered
by one of the three invariant descriptions. -/
theorem goodState_start (settings : Settings) (now : Int) (s : TimerState) :
    goodState (startNextPhase settings now s) := by
  unfold startNextPhase resetTimer
  split
  · exact Or.inr (Or.inl ⟨rfl, by simp, rfl, by simp⟩)
  · split
    · split
      · exact Or.inr (Or.inl ⟨rfl, by simp, rfl, by simp⟩)
      · exact Or.inr (Or.inl ⟨rfl, by simp, rfl, by simp⟩)
    · exact goodState_initState

/-- `pauseTimer` preserves coverage by the invariant descriptions. -/
theorem goodState_pause (now : Int) (s : TimerState) (h : goodState s) :
    goodState (pauseTimer now s) := by
  unfold pauseTimer
  split
  · exact h
  · rename_i hrun
    simp only [Bool.not_eq_false] at hrun
    have hphase : ¬ s.phase = "idle" := by
      rcases h with ⟨_, h2, _⟩ | ⟨_, _, _, h4⟩ | ⟨h1, _, _⟩
      · rw [hrun] at h2; exact absurd h2 (by simp)
      · exact h4
      · rw [hrun] at h1; exact absurd h1 (by simp)
    exact Or.inr (Or.inr ⟨rfl, by simp, hphase⟩)

/-- `resumeTimer` preserves coverage by the invariant descriptions. -/
theorem goodState_resume (now : Int) (s : TimerState) (h : goodState s) :
    goodState (resumeTimer now s) := by
  unfold resumeTimer
  split
  · exact h
  · rename_i hguard
    push_neg at hguard
    obtain ⟨hrun, hrem⟩ := hguard
    simp only [Bool.not_eq_true] at hrun
    have hphase : ¬ s.phase = "idle" := by
      rcases h with ⟨_, _, h3⟩ | ⟨h1, _, _, _⟩ | ⟨_, _, h3⟩
      · exact absurd h3 hrem
      · rw [hrun] at h1; exact absurd h1 (by simp)
      · exact h3
    exact Or.inr (Or.inl ⟨rfl, by simp, rfl, hphase⟩)

/-- Every dispatched command preserves coverage by the invariant
descriptions. -/
theorem goodState_applyCmd (c : Cmd) (s : TimerState) (h : goodState s) :
    goodState (applyCmd c s) := by
  cases c with
  | start settings now => exact goodState_start settings now s
  | pause now => exact goodState_pause now s h
  | resume now => exact goodState_resume now s h

/-- Folding any command list over a covered state stays covered. -/
theorem goodState_foldl (cs : List Cmd) (s : TimerState) (h : goodState s) :
    goodState (cs.foldl (fun s c => applyCmd c s) s) := by
  induction cs generalizing s with
  | nil => exact h
  | cons c cs ih => exact ih (applyCmd c s) (goodState_applyCmd c s h)

/-- The three invariant descriptions are pairwise exclusive, so coverage
upgrades to the exactly-one-of form. -/
theorem exactlyOneInv_of_good (s : TimerState) (h : goodState s) :
    exactlyOneInv s := by
  rcases h with h | h | h
  · refine Or.inl ⟨h, ?_, ?_⟩
    · rintro ⟨hr, -⟩
      rw [h.2.1] at hr
      exact absurd hr (by simp)
    · rintro ⟨-, -, hp⟩
      exact hp h.1
  · refine Or.inr (Or.inl ⟨?_, h, ?_⟩)
    · rintro ⟨hi, -⟩
      exact h.2.2.2 hi
    · rintro ⟨hp, -⟩
      rw [h.1] at hp
      exact absurd hp (by simp)
  · refine Or.inr (Or.inr ⟨?_, ?_, h⟩)
    · rintro ⟨hi, -⟩
      exact h.2.2 hi
    · rintro ⟨hr, -⟩
      rw [h.1] at hr
      exact absurd hr (by simp)

/-- The 7-day trailing window of `computeStatsSummary`, written out as
the seven independent ledger lookups. -/
theorem weekSum_spec (today : Int) (stats : Int → Nat) (x : Nat) :
    (computeStatsSummary today stats x).2.1 =
      stats today + stats (today - 1) + stats (today - 2) + stats (today - 3) +
      stats (today - 4) + stats (today - 5) + stats (today - 6) := by
  have h7 : List.range 7 = [0, 1, 2, 3, 4, 5, 6] := rfl
  simp [computeStatsSummary, h7, List.foldl]

/-- C1: every finite sequence of start, pause and resume commands applied
to the initial idle TimerState yields a state satisfying the
exactly-one-of invariant: exactly one of idle, running-with-endTime,
paused-with-remainingTime describes the state after each call. -/
theorem runCmds_exactlyOneInv (cs : List Cmd) : exactlyOneInv (runCmds cs) :=
  exactlyOneInv_of_good _ (goodState_foldl cs initState goodState_initState)

/-- C2: the transition rule of startNextPhase. Leaving the work phase
increments cycleCount and selects a long break exactly when the new
cycleCount is divisible by longBreakInterval, otherwise a short break;
leaving idle or either break phase starts a work phase without touching
cycleCount; any other phase value produces a full reset to the initial
idle state. -/
theorem startNextPhase_transition (settings : Settings) (now : Int) (s : TimerState) :
    (s.phase = "work" →
      (startNextPhase settings now s).cycleCount = s.cycleCount + 1 ∧
      (((s.cycleCount + 1) % settings.longBreakInterval = 0 ∧
        (startNextPhase settings now s).phase = "long_break") ∨
       (¬ (s.cycleCount + 1) % settings.longBreakInterval = 0 ∧
        (startNextPhase settings now s).phase = "short_break"))) ∧
    ((s.phase = "idle" ∨ s.phase = "short_break" ∨ s.phase = "long_break") →
      (startNextPhase settings now s).phase = "work" ∧
      (startNextPhase settings now s).cycleCount = s.cycleCount) ∧
    (¬ s.phase = "idle" → ¬ s.phase = "work" → ¬ s.phase = "short_break" →
      ¬ s.phase = "long_break" → startNextPhase settings now s = initState) := by
  refine ⟨?_, ?_, ?_⟩
  · intro h
    unfold startNextPhase
    simp [h]
    by_cases hmod : (s.cycleCount + 1) % settings.longBreakInterval = 0 <;>
      simp [hmod]
  · intro h
    unfold startNextPhase
    rcases h with h | h | h <;> simp [h]
  · intro h1 h2 h3 h4
    unfold startNextPhase resetTimer
    simp [h1, h2, h3, h4]

/-- C2 witness: under the default settings, starting out of a paused work
state with three completed cycles yields the long break with cycleCount
4; starting from idle yields a work phase; an unexpected phase string
yields the initial state. -/
theorem startNextPhase_transition_witness :
    (startNextPhase defaultSettings 0 pausedWork3).cycleCount = 4 ∧
    (startNextPhase defaultSettings 0 pausedWork3).phase = "long_break" ∧
    (startNextPhase defaultSettings 0 initState).phase = "work" ∧
    startNextPhase defaultSettings 0 bogusState = initState := by
  have h := startNextPhase_transition defaultSettings 0 pausedWork3
  have hi := startNextPhase_transition defaultSettings 0 initState
  have hb := startNextPhase_transition defaultSettings 0 bogusState
  refine ⟨(h.1 rfl).1, ?_, (hi.2.1 (Or.inl rfl)).1,
    hb.2.2 (by decide) (by decide) (by decide) (by decide)⟩
  rcases (h.1 rfl).2 with ⟨-, hp⟩ | ⟨hbad, -⟩
  · exact hp
  · exact absurd (by decide) hbad

/-- C3 counterexample: startNextPhase is not a state no-op on a running
state; on a running work state it advances to a break. -/
theorem start_not_noop_when_running :
    runningWork0.running = true ∧
    ¬ startNextPhase defaultSettings 0 runningWork0 = runningWork0 := by decide

/-- C3 (amended): startNextPhase never consults the running flag; on a
running state it behaves exactly as on the corresponding non-running
state, applying the usual transition rule rather than leaving the state
unchanged. -/
theorem startNextPhase_ignores_running (settings : Settings) (now : Int)
    (s : TimerState) (_h : s.running = true) :
    startNextPhase settings now s =
      startNextPhase settings now { s with running := false } := rfl

/-- C3 witness: the amended statement at a concrete running work state. -/
theorem startNextPhase_ignores_running_witness :
    startNextPhase defaultSettings 0 runningWork0 =
      startNextPhase defaultSettings 0 { runningWork0 with running := false } :=
  startNextPhase_ignores_running defaultSettings 0 runningWork0 rfl

/-- C4 counterexample: pausing a running state does not clear endTime;
the stale endTime value survives the pause. -/
theorem pause_does_not_clear_endTime :
    runningWork0.running = true ∧
    (pauseTimer 600000 runningWork0).endTime = some 1500000 ∧
    ¬ (pauseTimer 600000 runningWork0).endTime = none := by decide

/-- C4 (amended): on a running state, pauseTimer sets
remainingTime = max(endTime - now, 0) and running = false and leaves
every other field, endTime included, unchanged; on a non-running state
it is the identity. -/
theorem pauseTimer_spec (now : Int) (s : TimerState) :
    (∀ e, s.running = true → s.endTime = some e →
      pauseTimer now s =
        { s with running := false, remainingTime := some (max (e - now) 0) }) ∧
    (s.running = false → pauseTimer now s = s) := by
  constructor
  · intro e hrun hend
    simp [pauseTimer, hrun, hend]
  · intro hrun
    simp [pauseTimer, hrun]

/-- C4 witness: the amended statement at a concrete running work state
and at the idle state. -/
theorem pauseTimer_spec_witness :
    pauseTimer 600000 runningWork0 =
      { runningWork0 with running := false, remainingTime := some 900000 } ∧
    pauseTimer 600000 initState = initState := by
  constructor
  · exact ((pauseTimer_spec 600000 runningWork0).1 1500000 rfl rfl).trans (by decide)
  · exact (pauseTimer_spec 600000 initState).2 rfl

/-- C5 counterexample: when the pause happens after endTime has already
passed, the pause/resume round trip at one instant changes the remaining
time, clamping it from negative up to zero. -/
theorem pause_resume_overdue_changes_remaining :
    overdueWork.running = true ∧
    ¬ ((resumeTimer 200 (pauseTimer 200 overdueWork)).endTime.getD 0 - 200 =
        overdueWork.endTime.getD 0 - 200) := by decide

/-- C5 (amended): for a running state paused at or before its endTime,
pause followed immediately by resume at the same instant restores
exactly the original endTime, so the remaining time endTime - now is
unchanged. -/
theorem pause_resume_preserves_remaining (now e : Int) (s : TimerState)
    (hrun : s.running = true) (hend : s.endTime = some e) (hle : now ≤ e) :
    (resumeTimer now (pauseTimer now s)).running = true ∧
    (resumeTimer now (pauseTimer now s)).endTime = some e := by
  have hp : pauseTimer now s =
      { s with running := false, remainingTime := some (max (e - now) 0) } := by
    simp [pauseTimer, hrun, hend]
  have hm : max (e - now) 0 = e - now := max_eq_left (by omega)
  rw [hp]
  simp [resumeTimer, hm]

/-- C5 witness: the amended statement at a concrete running work state
paused 10 minutes into the phase. -/
theorem pause_resume_preserves_remaining_witness :
    (resumeTimer 600000 (pauseTimer 600000 runningWork0)).running = true ∧
    (resumeTimer 600000 (pauseTimer 600000 runningWork0)).endTime = some 1500000 :=
  pause_resume_preserves_remaining 600000 1500000 runningWork0 rfl rfl (by decide)

/-- C6: reset yields exactly the initial idle state, leaves no alarm
registration pending, and a phase-end wake scheduled before the reset
cannot fire afterwards: attempting to deliver timerEnd after the reset
changes nothing. -/
theorem resetW_spec (w : World) :
    (resetW w).timer = initState ∧ (resetW w).alarms = [] ∧
    fireTimerEnd (resetW w) = resetW w := by
  refine ⟨rfl, rfl, ?_⟩
  simp [fireTimerEnd, resetW]

/-- C7 counterexample: start from idle at 0, let the phase-end alarm
fire, reset during the 500 ms delay window. The reset does reach the
idle state, yet when the deferred setTimeout continuation expires it
still runs startNextPhase: the machine leaves idle and is running a
work phase again. -/
theorem reset_does_not_suppress_deferred_start :
    (resetW (fireTimerEnd (startW defaultSettings 0
        { timer := initState, alarms := [], pendingTimeout := false }))).timer
      = initState ∧
    (fireTimeout defaultSettings 1500500
        (resetW (fireTimerEnd (startW defaultSettings 0
          { timer := initState, alarms := [], pendingTimeout := false })))).timer.phase
      = "work" ∧
    (fireTimeout defaultSettings 1500500
        (resetW (fireTimerEnd (startW defaultSettings 0
          { timer := initState, alarms := [], pendingTimeout := false })))).timer.running
      = true := by decide

/-- C7 (amended): a reset during the post-completion delay window does
not suppress the deferred auto-start. Whenever the deferred continuation
is pending, firing it after a reset puts the machine into a running work
phase instead of leaving it idle. -/
theorem reset_then_timeout_starts_work (settings : Settings) (now : Int) (w : World)
    (h : w.pendingTimeout = true) :
    (fireTimeout settings now (resetW w)).timer.phase = "work" ∧
    (fireTimeout settings now (resetW w)).timer.running = true := by
  simp [fireTimeout, resetW, h, startW, startNextPhase, resetTimer, initState]

/-- C7 witness: the amended statement at a concrete world with a pending
deferred continuation. -/
theorem reset_then_timeout_starts_work_witness :
    (fireTimeout defaultSettings 5 (resetW ⟨initState, [], true⟩)).timer.phase
      = "work" ∧
    (fireTimeout defaultSettings 5 (resetW ⟨initState, [], true⟩)).timer.running
      = true :=
  reset_then_timeout_starts_work defaultSettings 5 ⟨initState, [], true⟩ rfl

/-- C8: the streak update performed by incrementStat on a work-phase
completion dated today: no recorded lastStreakDate gives streak 1; a
lastStreakDate of yesterday increments the streak; a lastStreakDate of
today leaves it unchanged; any other recorded date resets it to 1; and
lastStreakDate always becomes today. -/
theorem incrementStat_streak_rule (today : Int) (stats : Int → Nat) (sd : StreakData) :
    ((incrementStat today stats sd).2).lastStreakDate = some today ∧
    (sd.lastStreakDate = none → ((incrementStat today stats sd).2).streak = 1) ∧
    (sd.lastStreakDate = some (today - 1) →
      ((incrementStat today stats sd).2).streak = sd.streak + 1) ∧
    (sd.lastStreakDate = some today →
      ((incrementStat today stats sd).2).streak = sd.streak) ∧
    (∀ lastDate, sd.lastStreakDate = some lastDate → ¬ lastDate = today - 1 →
      ¬ lastDate = today → ((incrementStat today stats sd).2).streak = 1) := by
  refine ⟨?_, ?_, ?_, ?_, ?_⟩
  · cases h : sd.lastStreakDate with
    | none => simp [incrementStat, updateStreak, h]
    | some lastDate =>
      simp only [incrementStat, updateStreak, h]
      split
      · rfl
      · split <;> rfl
  · intro h
    simp [incrementStat, updateStreak, h]
  · intro h
    simp [incrementStat, updateStreak, h]
  · intro h
    simp only [incrementStat, updateStreak, h]
    rw [if_neg (by omega), if_neg (by simp)]
  · intro lastDate h hne1 hne2
    simp only [incrementStat, updateStreak, h]
    rw [if_neg hne1, if_pos hne2]

/-- C8 witness: the four streak cases and the lastStreakDate update at
concrete dates (completion on day 10 with prior data from day 9, day 10,
day 7 and no prior data). -/
theorem incrementStat_streak_rule_witness :
    ((incrementStat 10 (fun _ => 0) ⟨3, some 9⟩).2).streak = 4 ∧
    ((incrementStat 10 (fun _ => 0) ⟨3, some 10⟩).2).streak = 3 ∧
    ((incrementStat 10 (fun _ => 0) ⟨3, some 7⟩).2).streak = 1 ∧
    ((incrementStat 10 (fun _ => 0) ⟨3, none⟩).2).streak = 1 ∧
    ((incrementStat 10 (fun _ => 0) ⟨3, some 9⟩).2).lastStreakDate = some 10 := by
  refine ⟨?_, ?_, ?_, ?_, ?_⟩
  · exact (incrementStat_streak_rule 10 (fun _ => 0) ⟨3, some 9⟩).2.2.1 (by decide)
  · exact (incrementStat_streak_rule 10 (fun _ => 0) ⟨3, some 10⟩).2.2.2.1 rfl
  · exact (incrementStat_streak_rule 10 (fun _ => 0) ⟨3, some 7⟩).2.2.2.2 7 rfl
      (by decide) (by decide)
  · exact (incrementStat_streak_rule 10 (fun _ => 0) ⟨3, none⟩).2.1 rfl
  · exact (incrementStat_streak_rule 10 (fun _ => 0) ⟨3, some 9⟩).1

/-- C9: the stats summary returns the ledger entry for today, and a week
value equal to the sum of the seven independent lookups for today and
the six preceding days; changing the ledger at a key 8 or more days old
leaves the week value untouched. -/
theorem computeStatsSummary_spec (today : Int) (stats : Int → Nat) (x : Nat) :
    (computeStatsSummary today stats x).1 = stats today ∧
    (computeStatsSummary today stats x).2.1 =
      stats today + stats (today - 1) + stats (today - 2) + stats (today - 3) +
      stats (today - 4) + stats (today - 5) + stats (today - 6) ∧
    (∀ d v, today - d ≥ 8 →
      (computeStatsSummary today (fun k => if k = d then v else stats k) x).2.1 =
      (computeStatsSummary today stats x).2.1) := by
  refine ⟨rfl, weekSum_spec today stats x, ?_⟩
  intro d v hd
  rw [weekSum_spec, weekSum_spec]
  rw [if_neg (by omega), if_neg (by omega), if_neg (by omega), if_neg (by omega),
    if_neg (by omega), if_neg (by omega), if_neg (by omega)]

/-- C9 witness: on the sample ledger with entries on day 100, day 99 and
day 92, viewed from day 100: today is 2, the week is 3, and rewriting
the 8-day-old entry does not change the week value. -/
theorem computeStatsSummary_spec_witness :
    (computeStatsSummary 100 sampleStats 0).1 = 2 ∧
    (computeStatsSummary 100 sampleStats 0).2.1 = 3 ∧
    (computeStatsSummary 100 (fun k => if k = 92 then 9 else sampleStats k) 0).2.1 =
      (computeStatsSummary 100 sampleStats 0).2.1 := by
  refine ⟨by decide, by decide,
    (computeStatsSummary_spec 100 sampleStats 0).2.2 92 9 (by decide)⟩

/-- C10: starting out of a paused work state does not resume the
remaining work time: cycleCount is incremented, remainingTime is
discarded, the timer runs, and the new phase is a full-length break
whose endTime uses the configured break duration, long when the new
cycleCount is divisible by longBreakInterval and short otherwise. -/
theorem start_from_paused_work (settings : Settings) (now : Int) (s : TimerState)
    (r : Int) (hphase : s.phase = "work") (_hrun : s.running = false)
    (_hrem : s.remainingTime = some r) :
    (startNextPhase settings now s).cycleCount = s.cycleCount + 1 ∧
    (startNextPhase settings now s).remainingTime = none ∧
    (startNextPhase settings now s).running = true ∧
    ((s.cycleCount + 1) % settings.longBreakInterval = 0 →
      (startNextPhase settings now s).phase = "long_break" ∧
      (startNextPhase settings now s).endTime =
        some (now + settings.longBreakDuration * 60 * 1000)) ∧
    (¬ (s.cycleCount + 1) % settings.longBreakInterval = 0 →
      (startNextPhase settings now s).phase = "short_break" ∧
      (startNextPhase settings now s).endTime =
        some (now + settings.shortBreakDuration * 60 * 1000)) := by
  unfold startNextPhase
  simp [hphase]
  by_cases hmod : (s.cycleCount + 1) % settings.longBreakInterval = 0 <;>
    simp [hmod]

/-- C10 witness: starting out of the concrete paused work state with
three completed cycles under the default settings discards the paused
remaining time and begins the full 15-minute long break. -/
theorem start_from_paused_work_witness :
    (startNextPhase defaultSettings 0 pausedWork3).remainingTime = none ∧
    (startNextPhase defaultSettings 0 pausedWork3).running = true ∧
    (startNextPhase defaultSettings 0 pausedWork3).endTime = some 900000 := by
  have h := start_from_paused_work defaultSettings 0 pausedWork3 600000 rfl rfl rfl
  exact ⟨h.2.1, h.2.2.1, ((h.2.2.2.1 (by decide)).2).trans (by decide)⟩
